import Mathlib

/-!
Verification of `custom_components/opendisplay/tag_types.py`.

The Python module manages device-capability records ("tag types"): a value
class `TagType` with wire/storage serialization, and a `TagTypesManager`
holding an in-memory table, a freshness timestamp, persisted storage (current
and legacy keys), a legacy on-disk file, and a two-phase remote fetch.

Modelling conventions:
* Python/JSON values are embedded as the inductive `Value`; Python `None` is
  `Value.null`.  A Python `dict` is a key-ordered association list
  `List (String × Value)` (first binding wins on lookup, as JSON-loaded and
  literal dicts have unique keys; inserts that overwrite are modelled by
  `dinsert`).
* `dict.get(k, default)` returns the stored value even when that value is
  `None`; `dictGet` mirrors this: the default applies only when the key is
  absent.
* `datetime` values are integers (minutes).  `timedelta(hours=48)` becomes
  `CACHE_DURATION = 2880` minutes.  The ISO-8601 `last_update` string of a
  stored blob is modelled, together with its parse, as `Option Int`: `some t`
  when the field is present, truthy and parseable (which is always the case
  for blobs written by `_save_to_store`), `none` otherwise (absent, empty or
  unparsable, all of which the code maps to `datetime.now()`).
* `list(xs)` in `to_dict` copies a list; under value semantics it is the
  identity, which is how it is modelled.
* Storage and network effects are explicit: a `World` holds the current
  store, the legacy store and the legacy-file flag; a `FetchEnv` holds the
  outcome of the directory listing and of each per-URL download (a per-URL
  download that fails at HTTP level, raises, or does not parse as a JSON
  object is `none` — all of these are skipped identically by the code).
  Storage-load exceptions are treated as "no data" by the code and are
  therefore collapsed into the absent case.
-/

/-- JSON-like dynamic value; `null` models Python `None`. -/
inductive Value where
  | null : Value
  | bool : Bool → Value
  | int : Int → Value
  | str : String → Value
  | arr : List Value → Value
  | obj : List (String × Value) → Value
deriving Repr

/-- Python `dict.get(k, default)`: the stored value when the key is present
(even if that value is `None`), otherwise the default. -/
def dictGet (d : List (String × Value)) (k : String) (dflt : Value) : Value :=
  match d.lookup k with
  | some v => v
  | none => dflt

/-- Default colour table from `TagType.__init__`
(`{'white': [255,255,255], 'black': [0,0,0], 'red': [255,0,0]}`). -/
def defaultColorTable : Value :=
  Value.obj
    [ ("white", Value.arr [Value.int 255, Value.int 255, Value.int 255])
    , ("black", Value.arr [Value.int 0, Value.int 0, Value.int 0])
    , ("red", Value.arr [Value.int 255, Value.int 0, Value.int 0]) ]

/-- In-memory `TagType` object: the attributes set by `TagType.__init__`.
Attribute values are dynamic, hence of type `Value`. -/
structure TagType where
  type_id : Int
  version : Value
  name : Value
  width : Value
  height : Value
  rotatebuffer : Value
  bpp : Value
  color_table : Value
  short_lut : Value
  options : Value
  content_ids : Value
  template : Value
  use_template : Value
  zlib_compression : Value
  raw_data : List (String × Value)
deriving Repr

/-- `TagType.__init__(type_id, data)`: every attribute resolves through
`data.get(key, default)` with the documented defaults. -/
def TagType.init (type_id : Int) (data : List (String × Value)) : TagType :=
  { type_id := type_id
  , version := dictGet data "version" (Value.int 1)
  , name := dictGet data "name" (Value.str ("Unknown Type " ++ toString type_id))
  , width := dictGet data "width" (Value.int 296)
  , height := dictGet data "height" (Value.int 128)
  , rotatebuffer := dictGet data "rotatebuffer" (Value.int 0)
  , bpp := dictGet data "bpp" (Value.int 2)
  , color_table := dictGet data "colortable" defaultColorTable
  , short_lut := dictGet data "shortlut" (Value.int 2)
  , options := dictGet data "options" (Value.arr [])
  , content_ids := dictGet data "contentids" (Value.arr [])
  , template := dictGet data "template" (Value.obj [])
  , use_template := dictGet data "usetemplate" Value.null
  , zlib_compression := dictGet data "zlib_compression" Value.null
  , raw_data := data }

/-- `TagType.to_dict()`: the storage form.  `list(self.options)` and
`list(self.content_ids)` copy a list, modelled as the identity. -/
def TagType.to_dict (t : TagType) : List (String × Value) :=
  [ ("version", t.version)
  , ("name", t.name)
  , ("width", t.width)
  , ("height", t.height)
  , ("rotatebuffer", t.rotatebuffer)
  , ("bpp", t.bpp)
  , ("colortable", t.color_table)
  , ("shortlut", t.short_lut)
  , ("options", t.options)
  , ("contentids", t.content_ids)
  , ("template", t.template)
  , ("usetemplate", t.use_template)
  , ("zlib_compression", t.zlib_compression) ]

/-- `TagType.from_dict(type_id, data)`: builds the intermediate `raw_data`
dict (note: absent keys become entries bound to `None`, except for
`version`, `options`, `contentids` and `template`, which get real defaults,
and the legacy key fallbacks `short_lut`/`shortlut` and
`contentids`/`content_ids`), then calls `__init__` on it. -/
def TagType.from_dict (type_id : Int) (data : List (String × Value)) : TagType :=
  let raw_data : List (String × Value) :=
    [ ("version", dictGet data "version" (Value.int 1))
    , ("name", dictGet data "name" Value.null)
    , ("width", dictGet data "width" Value.null)
    , ("height", dictGet data "height" Value.null)
    , ("rotatebuffer", dictGet data "rotatebuffer" Value.null)
    , ("bpp", dictGet data "bpp" Value.null)
    , ("shortlut", dictGet data "short_lut" (dictGet data "shortlut" Value.null))
    , ("colortable", dictGet data "colortable" Value.null)
    , ("options", dictGet data "options" (Value.arr []))
    , ("contentids", dictGet data "contentids" (dictGet data "content_ids" (Value.arr [])))
    , ("template", dictGet data "template" (Value.obj []))
    , ("usetemplate", dictGet data "usetemplate" Value.null)
    , ("zlib_compression", dictGet data "zlib_compression" Value.null) ]
  TagType.init type_id raw_data

/-- The attribute names a `TagType` instance carries (the fixed field set
that `getattr` finds as data attributes). -/
def tagTypeFieldNames : List String :=
  [ "type_id", "version", "name", "width", "height", "rotatebuffer", "bpp"
  , "color_table", "short_lut", "options", "content_ids", "template"
  , "use_template", "zlib_compression", "_raw_data" ]

/-- Result of Python attribute lookup `getattr(obj, attr, default)`: either
a plain value (an instance data attribute, or the caller's default) or a
bound method / class attribute, which is a callable object distinct from
every `Value` the callers supply as defaults. -/
inductive PyAttr where
  | val : Value → PyAttr
  | boundMethod : String → PyAttr
deriving Repr

/-- Names of the methods defined in the `TagType` class body; `getattr` on
an instance resolves these to bound methods, never to the caller default. -/
def tagTypeMethodNames : List String :=
  ["__init__", "to_dict", "from_dict", "get"]

/-- Attribute names every instance inherits from `object` (CPython's
standard set; the exact set is interpreter-version dependent, and no
theorem below depends on its exact extent).  `getattr` resolves these to
the inherited attribute, never to the caller default. -/
def objectAttrNames : List String :=
  [ "__class__", "__delattr__", "__dict__", "__dir__", "__doc__", "__eq__"
  , "__format__", "__ge__", "__getattribute__", "__getstate__", "__gt__"
  , "__hash__", "__init_subclass__", "__le__", "__lt__", "__module__"
  , "__ne__", "__new__", "__reduce__", "__reduce_ex__", "__repr__"
  , "__setattr__", "__sizeof__", "__str__", "__subclasshook__"
  , "__weakref__" ]

/-- `TagType.get(attr, default)` = `getattr(self, attr, default)`: the
stored attribute value (even when it is `None`) for a name in the data
field set; the bound method / inherited class attribute for a method name
or an `object`-inherited name; the caller-supplied default only for names
that are no attribute of the object at all. -/
def TagType.get (t : TagType) (attr : String) (dflt : Value) : PyAttr :=
  if attr = "type_id" then PyAttr.val (Value.int t.type_id)
  else if attr = "version" then PyAttr.val t.version
  else if attr = "name" then PyAttr.val t.name
  else if attr = "width" then PyAttr.val t.width
  else if attr = "height" then PyAttr.val t.height
  else if attr = "rotatebuffer" then PyAttr.val t.rotatebuffer
  else if attr = "bpp" then PyAttr.val t.bpp
  else if attr = "color_table" then PyAttr.val t.color_table
  else if attr = "short_lut" then PyAttr.val t.short_lut
  else if attr = "options" then PyAttr.val t.options
  else if attr = "content_ids" then PyAttr.val t.content_ids
  else if attr = "template" then PyAttr.val t.template
  else if attr = "use_template" then PyAttr.val t.use_template
  else if attr = "zlib_compression" then PyAttr.val t.zlib_compression
  else if attr = "_raw_data" then PyAttr.val (Value.obj t.raw_data)
  else if attr ∈ tagTypeMethodNames then PyAttr.boundMethod attr
  else if attr ∈ objectAttrNames then PyAttr.boundMethod attr
  else PyAttr.val dflt

/-! ### Integer parsing (Python `int(s, 16)` and `int(s)`)

Modelled for plain literals: an optional sign, then (for base 16) an
optional `0x`/`0X` prefix, then a non-empty digit run.  (Python additionally
strips surrounding whitespace and allows `_` separators; the filenames this
is applied to contain neither.) -/

/-- Value of one hexadecimal digit character. -/
def hexDigitVal (c : Char) : Option Nat :=
  if '0' ≤ c ∧ c ≤ '9' then some (c.toNat - '0'.toNat)
  else if 'a' ≤ c ∧ c ≤ 'f' then some (c.toNat - 'a'.toNat + 10)
  else if 'A' ≤ c ∧ c ≤ 'F' then some (c.toNat - 'A'.toNat + 10)
  else none

/-- Value of one decimal digit character. -/
def decDigitVal (c : Char) : Option Nat :=
  if '0' ≤ c ∧ c ≤ '9' then some (c.toNat - '0'.toNat) else none

/-- Fold a non-empty digit run in the given base; `none` on the empty run or
on any non-digit. -/
def digitsVal (base : Nat) (digitVal : Char → Option Nat) :
    List Char → Option Nat
  | [] => none
  | cs =>
    cs.foldl
      (fun acc c =>
        match acc, digitVal c with
        | some a, some d => some (a * base + d)
        | _, _ => none)
      (some 0)

/-- Sign handling shared by both parsers. -/
def splitSign : List Char → Bool × List Char
  | '-' :: rest => (true, rest)
  | '+' :: rest => (false, rest)
  | cs => (false, cs)

/-- Python `int(s, 16)`. -/
def pyIntHex (s : String) : Option Int :=
  let (neg, cs) := splitSign s.data
  let cs :=
    match cs with
    | '0' :: 'x' :: rest => rest
    | '0' :: 'X' :: rest => rest
    | cs => cs
  (digitsVal 16 hexDigitVal cs).map (fun n => if neg then -(n : Int) else (n : Int))

/-- Python `int(s)` (decimal). -/
def pyIntDec (s : String) : Option Int :=
  let (neg, cs) := splitSign s.data
  (digitsVal 10 decDigitVal cs).map (fun n => if neg then -(n : Int) else (n : Int))

/-! ### Phase A of `_fetch_tag_types`: directory listing -/

/-- One entry of the GitHub directory listing. -/
structure RemoteItem where
  name : String
  download_url : String
deriving Repr

/-- Python `s.endswith(suffix)`. -/
def pyEndsWith (s suffix : String) : Bool :=
  suffix.data.isSuffixOf s.data

/-- Python slicing `s[:-5]` (`base_name = item["name"][:-5]`). -/
def pySliceDropLast5 (s : String) : String :=
  String.mk (s.data.take (s.data.length - 5))

/-- Candidate ID derivation for one `.json` base name: hexadecimal parse
first, decimal parse as fallback (`continue` after the first success). -/
def parseTypeId (base : String) : Option Int :=
  match pyIntHex base with
  | some n => some n
  | none => pyIntDec base

/-- The listing loop of `_fetch_tag_types`: keep `.json` files whose base
name parses; files that parse as neither hex nor decimal (and non-`.json`
files) are skipped while the loop continues. -/
def listCandidates : List RemoteItem → List (Int × String)
  | [] => []
  | item :: rest =>
    if pyEndsWith item.name ".json" then
      match parseTypeId (pySliceDropLast5 item.name) with
      | some n => (n, item.download_url) :: listCandidates rest
      | none => listCandidates rest
    else listCandidates rest

/-! ### Phase B: download, validate, assemble -/

/-- `_validate_tag_definition`: all four required keys present. -/
def validateTagDefinition (data : List (String × Value)) : Bool :=
  ["version", "name", "width", "height"].all (fun k => (data.lookup k).isSome)

/-- In-memory table: insertion-ordered mapping from type ID to `TagType`. -/
abbrev Table := List (Int × TagType)

/-- Python dict assignment `m[k] = v`: overwrite in place, or append. -/
def dinsert (m : Table) (k : Int) (v : TagType) : Table :=
  if m.any (fun p => p.1 == k) then
    m.map (fun p => if p.1 == k then (k, v) else p)
  else m ++ [(k, v)]

/-- Outcome of the remote environment: the directory listing (`none` models
a batch-level network/API failure, i.e. the surrounding `try` catches) and
the per-URL downloads (`none` models every per-entry failure: non-200
status, a raised error, non-JSON text, or JSON that is not an object). -/
structure FetchEnv where
  listing : Option (List RemoteItem)
  download : String → Option (List (String × Value))

/-- The download loop of `_fetch_tag_types` over the candidate list: each
entry that downloads, parses and validates is inserted; all others are
skipped individually. -/
def assembleFrom (env : FetchEnv) (acc : Table) : List (Int × String) → Table
  | [] => acc
  | (hw, url) :: rest =>
    match env.download url with
    | some data =>
      if validateTagDefinition data then
        assembleFrom env (dinsert acc hw (TagType.init hw data)) rest
      else assembleFrom env acc rest
    | none => assembleFrom env acc rest

/-- The temporary `new_types` mapping assembled by `_fetch_tag_types`. -/
def assembleNewTypes (env : FetchEnv) (items : List RemoteItem) : Table :=
  assembleFrom env [] (listCandidates items)

/-! ### Manager state, storage world -/

/-- `CACHE_DURATION = timedelta(hours=48)`, in minutes. -/
def CACHE_DURATION : Int := 48 * 60

/-- Mutable state of a `TagTypesManager`: the table and the freshness
timestamp (minutes). -/
structure ManagerState where
  tag_types : Table
  last_update : Option Int
deriving Repr

/-- A persisted blob (shape written by `_save_to_store`): the `version`
field, the `last_update` ISO string modelled with its parse (see header),
and the `tag_types` dict from ID-as-string to storage-form value. -/
structure StoredBlob where
  version : Value
  last_update : Option Int
  tag_types : List (String × Value)
deriving Repr

/-- External storage/filesystem state: current-keyed store, legacy-keyed
store, and whether the legacy config-directory file exists. -/
structure World where
  store : Option StoredBlob
  legacy_store : Option StoredBlob
  legacy_file : Bool
deriving Repr

/-- `stored_data.get("version") == STORAGE_VERSION` with
`STORAGE_VERSION = 1`. -/
def versionMatches : Value → Bool
  | Value.int n => n == 1
  | _ => false

/-- `_load_from_payload`: set the timestamp from the blob (or now), then
rebuild the table entry by entry; an entry whose key is not an integer
string or whose value is not a dict raises and is skipped. -/
def loadFromPayload (now : Int) (blob : StoredBlob) : ManagerState :=
  let lu : Int :=
    match blob.last_update with
    | some t => t
    | none => now
  let table : Table :=
    blob.tag_types.foldl
      (fun acc kv =>
        match pyIntDec kv.1, kv.2 with
        | some type_id, Value.obj d => dinsert acc type_id (TagType.from_dict type_id d)
        | _, _ => acc)
      []
  { tag_types := table, last_update := some lu }

/-- The blob `_save_to_store` writes for a given state (after the
`last_update` default of `datetime.now()` has been applied). -/
def storeBlobOf (now : Int) (st : ManagerState) : StoredBlob :=
  let lu : Int :=
    match st.last_update with
    | some t => t
    | none => now
  { version := Value.int 1
  , last_update := some lu
  , tag_types := st.tag_types.map (fun p => (toString p.1, Value.obj p.2.to_dict)) }

/-- `_save_to_store`: default the timestamp to now if unset, then persist
under the current key. -/
def saveToStore (now : Int) (w : World) (st : ManagerState) : World × ManagerState :=
  let lu : Int :=
    match st.last_update with
    | some t => t
    | none => now
  let st2 : ManagerState := { st with last_update := some lu }
  ({ w with store := some (storeBlobOf now st) }, st2)

/-- `_cleanup_legacy_file`: remove the legacy config-directory file if it
exists (best-effort; errors only logged). -/
def cleanupLegacyFile (w : World) : World :=
  { w with legacy_file := false }

/-- `_fetch_tag_types`: list, assemble; only a non-empty assembled mapping
replaces the live table and timestamp and is then persisted; a batch-level
failure or an empty assembly reports `false` and changes nothing. -/
def fetchTagTypes (env : FetchEnv) (now : Int) (w : World) (st : ManagerState) :
    Bool × World × ManagerState :=
  match env.listing with
  | none => (false, w, st)
  | some items =>
    let new_types := assembleNewTypes env items
    if new_types.isEmpty then (false, w, st)
    else
      let st2 : ManagerState := { tag_types := new_types, last_update := some now }
      let ws := saveToStore now w st2
      (true, ws.1, ws.2)

/-! ### Static fallback set (`_load_fallback_types`) -/

/-- The literal `fallback_definitions` dict of `_load_fallback_types`. -/
def fallbackDefinitions : List (Int × List (String × Value)) :=
  [ (0, [("version", Value.int 4), ("name", Value.str "M2 1.54\""), ("width", Value.int 152), ("height", Value.int 152)])
  , (1, [("version", Value.int 5), ("name", Value.str "M2 2.9\""), ("width", Value.int 296), ("height", Value.int 128)])
  , (2, [("version", Value.int 5), ("name", Value.str "M2 4.2\""), ("width", Value.int 400), ("height", Value.int 300)])
  , (3, [("version", Value.int 6), ("name", Value.str "M2 2.2\""), ("width", Value.int 212), ("height", Value.int 104)])
  , (4, [("version", Value.int 4), ("name", Value.str "M2 2.6\""), ("width", Value.int 296), ("height", Value.int 152)])
  , (5, [("version", Value.int 4), ("name", Value.str "M2 7.4\""), ("width", Value.int 640), ("height", Value.int 384)])
  , (6, [("version", Value.int 4), ("name", Value.str "Opticon 2.2\""), ("width", Value.int 250), ("height", Value.int 128)])
  , (7, [("version", Value.int 4), ("name", Value.str "Opticon 2.9\""), ("width", Value.int 296), ("height", Value.int 128)])
  , (8, [("version", Value.int 2), ("name", Value.str "Opticon 4.2\""), ("width", Value.int 400), ("height", Value.int 300)])
  , (9, [("version", Value.int 2), ("name", Value.str "Opticon 7.5\""), ("width", Value.int 640), ("height", Value.int 384)])
  , (17, [("version", Value.int 3), ("name", Value.str "M2 2.9\" (UC8151)"), ("width", Value.int 296), ("height", Value.int 128)])
  , (18, [("version", Value.int 3), ("name", Value.str "M2 4.2\" UC"), ("width", Value.int 400), ("height", Value.int 300)])
  , (33, [("version", Value.int 2), ("name", Value.str "ST‐GM29XXF 2.9\""), ("width", Value.int 296), ("height", Value.int 128)])
  , (34, [("version", Value.int 2), ("name", Value.str "M2 2.7\""), ("width", Value.int 264), ("height", Value.int 176)])
  , (38, [("version", Value.int 1), ("name", Value.str "M2 7.5\" BW"), ("width", Value.int 640), ("height", Value.int 384)])
  , (39, [("version", Value.int 3), ("name", Value.str "ST‐GM29MT1 2.9\""), ("width", Value.int 296), ("height", Value.int 128)])
  , (40, [("version", Value.int 2), ("name", Value.str "M3 1.6\" BWRY"), ("width", Value.int 168), ("height", Value.int 168)])
  , (41, [("version", Value.int 1), ("name", Value.str "M3 2.4\" BWRY"), ("width", Value.int 296), ("height", Value.int 168)])
  , (42, [("version", Value.int 1), ("name", Value.str "M3 3.0\" BWRY"), ("width", Value.int 400), ("height", Value.int 168)])
  , (43, [("version", Value.int 1), ("name", Value.str "M3 2.9\" BWRY"), ("width", Value.int 384), ("height", Value.int 168)])
  , (44, [("version", Value.int 1), ("name", Value.str "M3 4.3\" BWRY"), ("width", Value.int 522), ("height", Value.int 152)])
  , (45, [("version", Value.int 2), ("name", Value.str "M3 12.2\""), ("width", Value.int 960), ("height", Value.int 768)])
  , (46, [("version", Value.int 5), ("name", Value.str "M3 9.7\""), ("width", Value.int 960), ("height", Value.int 672)])
  , (47, [("version", Value.int 4), ("name", Value.str "M3 4.3\""), ("width", Value.int 522), ("height", Value.int 152)])
  , (48, [("version", Value.int 2), ("name", Value.str "M3 1.6\""), ("width", Value.int 200), ("height", Value.int 200)])
  , (49, [("version", Value.int 1), ("name", Value.str "M3 2.2\""), ("width", Value.int 296), ("height", Value.int 160)])
  , (50, [("version", Value.int 1), ("name", Value.str "M3 2.6\""), ("width", Value.int 360), ("height", Value.int 184)])
  , (51, [("version", Value.int 3), ("name", Value.str "M3 2.9\""), ("width", Value.int 384), ("height", Value.int 168)])
  , (52, [("version", Value.int 2), ("name", Value.str "M3 4.2\""), ("width", Value.int 400), ("height", Value.int 300)])
  , (53, [("version", Value.int 2), ("name", Value.str "M3 6.0\""), ("width", Value.int 600), ("height", Value.int 448)])
  , (54, [("version", Value.int 5), ("name", Value.str "M3 7.5\""), ("width", Value.int 800), ("height", Value.int 480)])
  , (55, [("version", Value.int 3), ("name", Value.str "M3 11.6\""), ("width", Value.int 960), ("height", Value.int 640)])
  , (60, [("version", Value.int 3), ("name", Value.str "M3 4.2\" BWY"), ("width", Value.int 400), ("height", Value.int 300)])
  , (64, [("version", Value.int 1), ("name", Value.str "M3 2.9\" BW"), ("width", Value.int 384), ("height", Value.int 168)])
  , (65, [("version", Value.int 1), ("name", Value.str "M3 5.85\""), ("width", Value.int 792), ("height", Value.int 272)])
  , (66, [("version", Value.int 1), ("name", Value.str "M3 5.85\" BW"), ("width", Value.int 792), ("height", Value.int 272)])
  , (67, [("version", Value.int 2), ("name", Value.str "M3 1.3\" Peghook"), ("width", Value.int 144), ("height", Value.int 200)])
  , (68, [("version", Value.int 2), ("name", Value.str "M3 5.81\" BW"), ("width", Value.int 720), ("height", Value.int 256)])
  , (69, [("version", Value.int 3), ("name", Value.str "M3 2.2 Lite\""), ("width", Value.int 250), ("height", Value.int 128)])
  , (70, [("version", Value.int 1), ("name", Value.str "M3 2.2\" BW"), ("width", Value.int 296), ("height", Value.int 160)])
  , (71, [("version", Value.int 4), ("name", Value.str "M3 2.7\""), ("width", Value.int 300), ("height", Value.int 200)])
  , (72, [("version", Value.int 1), ("name", Value.str "M3 5.81\" BWR"), ("width", Value.int 720), ("height", Value.int 256)])
  , (73, [("version", Value.int 2), ("name", Value.str "M3 5.81\" V2 BWR"), ("width", Value.int 720), ("height", Value.int 256)])
  , (74, [("version", Value.int 1), ("name", Value.str "M3 1.6\" 200px BWRY"), ("width", Value.int 200), ("height", Value.int 200)])
  , (75, [("version", Value.int 1), ("name", Value.str "M3 2.2\" BWRY"), ("width", Value.int 296), ("height", Value.int 160)])
  , (76, [("version", Value.int 1), ("name", Value.str "M3 7.5\" BWRY"), ("width", Value.int 800), ("height", Value.int 480)])
  , (77, [("version", Value.int 3), ("name", Value.str "M3 11.6\" BWRY"), ("width", Value.int 960), ("height", Value.int 640)])
  , (78, [("version", Value.int 2), ("name", Value.str "M3 2.6\" BW"), ("width", Value.int 360), ("height", Value.int 184)])
  , (80, [("version", Value.int 2), ("name", Value.str "HD150 5.83\" BWR"), ("width", Value.int 648), ("height", Value.int 480)])
  , (84, [("version", Value.int 4), ("name", Value.str "HS BW 2.13\""), ("width", Value.int 256), ("height", Value.int 128)])
  , (85, [("version", Value.int 5), ("name", Value.str "HS BWR 2.13\""), ("width", Value.int 256), ("height", Value.int 128)])
  , (86, [("version", Value.int 6), ("name", Value.str "HS BWR 2.66\""), ("width", Value.int 296), ("height", Value.int 152)])
  , (87, [("version", Value.int 3), ("name", Value.str "TLSR BWR 1.54\""), ("width", Value.int 200), ("height", Value.int 200)])
  , (88, [("version", Value.int 3), ("name", Value.str "TLSR BW 2.13\""), ("width", Value.int 256), ("height", Value.int 128)])
  , (89, [("version", Value.int 3), ("name", Value.str "TLSR BWR 2.13\""), ("width", Value.int 264), ("height", Value.int 136)])
  , (90, [("version", Value.int 1), ("name", Value.str "HS BW 2.13\" LowRes"), ("width", Value.int 212), ("height", Value.int 104)])
  , (96, [("version", Value.int 6), ("name", Value.str "HS BWY 3.5\""), ("width", Value.int 384), ("height", Value.int 184)])
  , (97, [("version", Value.int 4), ("name", Value.str "HS BWR 3.5\""), ("width", Value.int 384), ("height", Value.int 184)])
  , (98, [("version", Value.int 4), ("name", Value.str "HS BW 3.5\""), ("width", Value.int 384), ("height", Value.int 184)])
  , (99, [("version", Value.int 6), ("name", Value.str "TLSR BWR 4.2\""), ("width", Value.int 400), ("height", Value.int 300)])
  , (102, [("version", Value.int 2), ("name", Value.str "HS BWY 7,5\""), ("width", Value.int 800), ("height", Value.int 480)])
  , (103, [("version", Value.int 3), ("name", Value.str "HS 2.00\" BWY"), ("width", Value.int 152), ("height", Value.int 200)])
  , (104, [("version", Value.int 4), ("name", Value.str "HS BWY 3.46\""), ("width", Value.int 480), ("height", Value.int 176)])
  , (105, [("version", Value.int 4), ("name", Value.str "TLSR BW 2.13\""), ("width", Value.int 250), ("height", Value.int 136)])
  , (106, [("version", Value.int 1), ("name", Value.str "HS BWR 5,83\""), ("width", Value.int 648), ("height", Value.int 480)])
  , (107, [("version", Value.int 3), ("name", Value.str "HS BWRY 7,5\""), ("width", Value.int 800), ("height", Value.int 480)])
  , (108, [("version", Value.int 3), ("name", Value.str "HS BWRY 2,00\""), ("width", Value.int 152), ("height", Value.int 200)])
  , (109, [("version", Value.int 3), ("name", Value.str "HS BWRY 3,5\""), ("width", Value.int 384), ("height", Value.int 184)])
  , (110, [("version", Value.int 3), ("name", Value.str "HS BWRY 2,9\""), ("width", Value.int 296), ("height", Value.int 128)])
  , (111, [("version", Value.int 2), ("name", Value.str "HS BWRY 2,60\""), ("width", Value.int 296), ("height", Value.int 152)])
  , (128, [("version", Value.int 1), ("name", Value.str "Chroma 7.4\""), ("width", Value.int 640), ("height", Value.int 384)])
  , (129, [("version", Value.int 2), ("name", Value.str "Chroma Aeon 74 7.4\""), ("width", Value.int 800), ("height", Value.int 480)])
  , (130, [("version", Value.int 2), ("name", Value.str "Chroma29 2.9\""), ("width", Value.int 296), ("height", Value.int 128)])
  , (131, [("version", Value.int 2), ("name", Value.str "Chroma42 4.2\""), ("width", Value.int 400), ("height", Value.int 300)])
  , (176, [("version", Value.int 5), ("name", Value.str "Gicisky BLE EPD BW 2.13\""), ("width", Value.int 250), ("height", Value.int 128)])
  , (177, [("version", Value.int 5), ("name", Value.str "Gicisky BLE EPD BWR 2.13\""), ("width", Value.int 250), ("height", Value.int 128)])
  , (178, [("version", Value.int 2), ("name", Value.str "Gicisky BLE EPD BW 2.9\""), ("width", Value.int 296), ("height", Value.int 128)])
  , (179, [("version", Value.int 2), ("name", Value.str "Gicisky BLE EPD BWR 2.9\""), ("width", Value.int 296), ("height", Value.int 128)])
  , (181, [("version", Value.int 2), ("name", Value.str "Gicisky BLE EPD BWR 4.2\""), ("width", Value.int 400), ("height", Value.int 300)])
  , (186, [("version", Value.int 5), ("name", Value.str "Gicisky BLE TFT 2.13\""), ("width", Value.int 250), ("height", Value.int 136)])
  , (189, [("version", Value.int 2), ("name", Value.str "BLE EPD BWR 2.9\" Silabs"), ("width", Value.int 384), ("height", Value.int 168)])
  , (190, [("version", Value.int 1), ("name", Value.str "ATC MiThermometer BLE"), ("width", Value.int 6), ("height", Value.int 8)])
  , (192, [("version", Value.int 2), ("name", Value.str "BWRY example"), ("width", Value.int 360), ("height", Value.int 184)])
  , (193, [("version", Value.int 1), ("name", Value.str "ACeP 4.01"), ("width", Value.int 640), ("height", Value.int 400)])
  , (194, [("version", Value.int 1), ("name", Value.str "Spectra 7.3"), ("width", Value.int 800), ("height", Value.int 480)])
  , (224, [("version", Value.int 2), ("name", Value.str "TFT 320x172"), ("width", Value.int 320), ("height", Value.int 172)])
  , (225, [("version", Value.int 2), ("name", Value.str "TFT 160x80"), ("width", Value.int 160), ("height", Value.int 80)])
  , (226, [("version", Value.int 1), ("name", Value.str "LILYGO TPANEL 4\""), ("width", Value.int 480), ("height", Value.int 480)])
  , (227, [("version", Value.int 1), ("name", Value.str "GDEM1085Z51 10.85\""), ("width", Value.int 1360), ("height", Value.int 480)])
  , (228, [("version", Value.int 1), ("name", Value.str "BLE TFT 128x128"), ("width", Value.int 128), ("height", Value.int 128)])
  , (229, [("version", Value.int 1), ("name", Value.str "TFT 240x320"), ("width", Value.int 320), ("height", Value.int 172)])
  , (240, [("version", Value.int 2), ("name", Value.str "SLT‐EM007 Segmented"), ("width", Value.int 0), ("height", Value.int 0)])
  , (250, [("version", Value.int 1), ("name", Value.str "ConfigMode"), ("width", Value.int 0), ("height", Value.int 0)])  ]

/-- `_load_fallback_types`: build the table from the literal definitions and
stamp the state with now. -/
def loadFallbackTypes (now : Int) : ManagerState :=
  { tag_types := fallbackDefinitions.map (fun p => (p.1, TagType.init p.1 p.2))
  , last_update := some now }

/-! ### Load protocol and warmup -/

/-- Shared tail of `load_stored_data` once both stores have been ruled out
(or the current store had a version mismatch): fetch; on failure populate
the fallback if the table is still empty; in either case attempt the
best-effort legacy-file cleanup. -/
def loadViaFetch (env : FetchEnv) (now : Int) (w : World) (st : ManagerState) :
    World × ManagerState :=
  let r := fetchTagTypes env now w st
  if r.1 then (cleanupLegacyFile r.2.1, r.2.2)
  else
    let st2 := if r.2.2.tag_types.isEmpty then loadFallbackTypes now else r.2.2
    (cleanupLegacyFile r.2.1, st2)

/-- `load_stored_data`: current store first (version-checked), then the
legacy store (version-checked; on success re-save under the current key and
remove the legacy store, without touching the legacy file), else the fetch
branch.  The `Nat` counts remote fetch attempts made along the way. -/
def loadStoredData (env : FetchEnv) (now : Int) (w : World) (st : ManagerState) :
    World × ManagerState × Nat :=
  match w.store with
  | some sd =>
    if versionMatches sd.version then (w, loadFromPayload now sd, 0)
    else
      let r := loadViaFetch env now w st
      (r.1, r.2, 1)
  | none =>
    match w.legacy_store with
    | some ld =>
      if versionMatches ld.version then
        let st2 := loadFromPayload now ld
        let ws := saveToStore now w st2
        ({ ws.1 with legacy_store := none }, ws.2, 0)
      else
        let r := loadViaFetch env now w st
        (r.1, r.2, 1)
    | none =>
      let r := loadViaFetch env now w st
      (r.1, r.2, 1)

/-- The staleness test of `ensure_types_loaded`:
`not self._last_update or datetime.now() - self._last_update > CACHE_DURATION`. -/
def isStale (now : Int) : Option Int → Bool
  | none => true
  | some t => decide (now - t > CACHE_DURATION)

/-- `ensure_types_loaded` (body under the lock): cold-start load when the
table is empty, last-resort fallback if still empty, then one refresh
attempt when stale (its failure is logged and ignored).  The `Nat` counts
remote fetch attempts. -/
def ensureTypesLoaded (env : FetchEnv) (now : Int) (w : World) (st : ManagerState) :
    World × ManagerState × Nat :=
  let r1 : World × ManagerState × Nat :=
    if st.tag_types.isEmpty then loadStoredData env now w st else (w, st, 0)
  let st2 : ManagerState :=
    if r1.2.1.tag_types.isEmpty then loadFallbackTypes now else r1.2.1
  if isStale now st2.last_update then
    let f := fetchTagTypes env now r1.1 st2
    (f.2.1, f.2.2, r1.2.2 + 1)
  else (r1.1, st2, r1.2.2)

/-! ### Non-warming lookups -/

/-- `get_hw_dimensions`: `(width, height)` attributes for a known ID, the
fixed `(296, 128)` defaults otherwise. -/
def getHwDimensions (st : ManagerState) (hw : Int) : Value × Value :=
  match st.tag_types.lookup hw with
  | none => (Value.int 296, Value.int 128)
  | some t => (t.width, t.height)

/-- `get_hw_string`: `"Unknown Type {id}"` for an unknown ID, else
`tag.get('name', "Unknown Type {id}")` — which is the stored `name`
attribute, whatever it is. -/
def getHwString (st : ManagerState) (hw : Int) : PyAttr :=
  match st.tag_types.lookup hw with
  | none => PyAttr.val (Value.str ("Unknown Type " ++ toString hw))
  | some t => t.get "name" (Value.str ("Unknown Type " ++ toString hw))

/-- `is_in_hw_map`. -/
def isInHwMap (st : ManagerState) (hw : Int) : Bool :=
  st.tag_types.any (fun p => p.1 == hw)

/-! ### Claim theorems -/

/-- C1.  Round-trip serialization: for every `TagType` `r`, reconstructing a
record from its storage form (`TagType.from_dict` applied to
`TagType.to_dict`'s output, with the same ID) yields a record equal to `r`
on every field the storage form captures: version, name, width, height,
rotatebuffer, bpp, color_table, short_lut, options, content_ids, template,
use_template and zlib_compression. -/
theorem round_trip_storage_form (id : Int) (r : TagType) :
    (TagType.from_dict id (TagType.to_dict r)).version = r.version
    ∧ (TagType.from_dict id (TagType.to_dict r)).name = r.name
    ∧ (TagType.from_dict id (TagType.to_dict r)).width = r.width
    ∧ (TagType.from_dict id (TagType.to_dict r)).height = r.height
    ∧ (TagType.from_dict id (TagType.to_dict r)).rotatebuffer = r.rotatebuffer
    ∧ (TagType.from_dict id (TagType.to_dict r)).bpp = r.bpp
    ∧ (TagType.from_dict id (TagType.to_dict r)).color_table = r.color_table
    ∧ (TagType.from_dict id (TagType.to_dict r)).short_lut = r.short_lut
    ∧ (TagType.from_dict id (TagType.to_dict r)).options = r.options
    ∧ (TagType.from_dict id (TagType.to_dict r)).content_ids = r.content_ids
    ∧ (TagType.from_dict id (TagType.to_dict r)).template = r.template
    ∧ (TagType.from_dict id (TagType.to_dict r)).use_template = r.use_template
    ∧ (TagType.from_dict id (TagType.to_dict r)).zlib_compression = r.zlib_compression :=
  ⟨rfl, rfl, rfl, rfl, rfl, rfl, rfl, rfl, rfl, rfl, rfl, rfl, rfl⟩

/-- C4 counterexample.  The claim asserts that on the storage-format path
(`TagType.from_dict`) an omitted `bpp` resolves to the documented default 2.
It does not: `from_dict` binds absent keys to `None` before calling
`__init__`, so at the concrete input `type_id = 5`, `data = {}` the
reconstructed record has `bpp = None ≠ 2` (and likewise `width = None ≠ 296`,
`height = None ≠ 128`). -/
theorem from_dict_missing_field_not_defaulted :
    (TagType.from_dict 5 []).bpp = Value.null
    ∧ (TagType.from_dict 5 []).bpp ≠ Value.int 2
    ∧ (TagType.from_dict 5 []).width ≠ Value.int 296
    ∧ (TagType.from_dict 5 []).height ≠ Value.int 128 :=
  ⟨rfl, fun h => Value.noConfusion h, fun h => Value.noConfusion h,
   fun h => Value.noConfusion h⟩

/-- When a key is absent, `dict.get` yields the supplied default. -/
theorem dictGet_none (data : List (String × Value)) (k : String) (d : Value)
    (h : data.lookup k = none) : dictGet data k d = d := by
  simp [dictGet, h]

/-- C4 amended.  A record can be constructed from wire-format input
(`TagType.init`, the direct constructor) or storage-format input
(`TagType.from_dict`) plus an ID.  On the direct path every absent field
resolves to its documented default (omitted `bpp` gives 2, `width` 296,
`height` 128, `colortable` the white/black/red table, `shortlut` 2, `name`
`"Unknown Type {id}"`, `version` 1, `rotatebuffer` 0, `options` `[]`,
`contentids` `[]`, `template` `{}`, `usetemplate`/`zlib_compression`
`None`).  On the storage path only `version`, `options`, `contentids` (or
legacy `content_ids`) and `template` resolve to real defaults; every other
absent field resolves to `None`. -/
theorem construction_defaults_by_path (id : Int) (data : List (String × Value)) :
    (data.lookup "version" = none →
      (TagType.init id data).version = Value.int 1
      ∧ (TagType.from_dict id data).version = Value.int 1)
    ∧ (data.lookup "name" = none →
      (TagType.init id data).name = Value.str ("Unknown Type " ++ toString id)
      ∧ (TagType.from_dict id data).name = Value.null)
    ∧ (data.lookup "width" = none →
      (TagType.init id data).width = Value.int 296
      ∧ (TagType.from_dict id data).width = Value.null)
    ∧ (data.lookup "height" = none →
      (TagType.init id data).height = Value.int 128
      ∧ (TagType.from_dict id data).height = Value.null)
    ∧ (data.lookup "rotatebuffer" = none →
      (TagType.init id data).rotatebuffer = Value.int 0
      ∧ (TagType.from_dict id data).rotatebuffer = Value.null)
    ∧ (data.lookup "bpp" = none →
      (TagType.init id data).bpp = Value.int 2
      ∧ (TagType.from_dict id data).bpp = Value.null)
    ∧ (data.lookup "colortable" = none →
      (TagType.init id data).color_table = defaultColorTable
      ∧ (TagType.from_dict id data).color_table = Value.null)
    ∧ (data.lookup "shortlut" = none →
      (TagType.init id data).short_lut = Value.int 2
      ∧ (data.lookup "short_lut" = none →
          (TagType.from_dict id data).short_lut = Value.null))
    ∧ (data.lookup "options" = none →
      (TagType.init id data).options = Value.arr []
      ∧ (TagType.from_dict id data).options = Value.arr [])
    ∧ (data.lookup "contentids" = none →
      (TagType.init id data).content_ids = Value.arr []
      ∧ (data.lookup "content_ids" = none →
          (TagType.from_dict id data).content_ids = Value.arr []))
    ∧ (data.lookup "template" = none →
      (TagType.init id data).template = Value.obj []
      ∧ (TagType.from_dict id data).template = Value.obj [])
    ∧ (data.lookup "usetemplate" = none →
      (TagType.init id data).use_template = Value.null
      ∧ (TagType.from_dict id data).use_template = Value.null)
    ∧ (data.lookup "zlib_compression" = none →
      (TagType.init id data).zlib_compression = Value.null
      ∧ (TagType.from_dict id data).zlib_compression = Value.null) := by
  refine ⟨fun h => ⟨?_, ?_⟩, fun h => ⟨?_, ?_⟩, fun h => ⟨?_, ?_⟩, fun h => ⟨?_, ?_⟩,
    fun h => ⟨?_, ?_⟩, fun h => ⟨?_, ?_⟩, fun h => ⟨?_, ?_⟩,
    fun h => ⟨?_, fun h2 => ?_⟩, fun h => ⟨?_, ?_⟩, fun h => ⟨?_, fun h2 => ?_⟩,
    fun h => ⟨?_, ?_⟩, fun h => ⟨?_, ?_⟩, fun h => ⟨?_, ?_⟩⟩
  all_goals first
    | exact dictGet_none _ _ _ h
    | exact (dictGet_none _ _ _ h2).trans (dictGet_none _ _ _ h)
    | exact (dictGet_none _ _ _ h).trans (dictGet_none _ _ _ h2)

/-- C4 witness: the amended theorem applied at `id = 5`, `data = {}`. -/
theorem construction_defaults_by_path_witness :
    (TagType.init 5 []).bpp = Value.int 2
    ∧ (TagType.from_dict 5 []).bpp = Value.null :=
  (construction_defaults_by_path 5 []).2.2.2.2.2.1 rfl

/-- C9 counterexample.  The claim asserts every record that can enter the
manager's table has strictly positive width and height; but the static
fallback set itself contains ID 240 (`"SLT‐EM007 Segmented"`) and ID 250
(`"ConfigMode"`) with `width = height = 0`, and `_load_fallback_types`
installs them into the table. -/
theorem fallback_zero_dimension_records :
    ((loadFallbackTypes 0).tag_types.lookup 240).map (fun t => (t.width, t.height))
      = some (Value.int 0, Value.int 0)
    ∧ ((loadFallbackTypes 0).tag_types.lookup 250).map (fun t => (t.width, t.height))
      = some (Value.int 0, Value.int 0) :=
  ⟨rfl, rfl⟩

/-- C9 amended.  Every record of the static fallback set has strictly
positive width and height, except the two special entries with IDs 240
(segmented) and 250 (config mode), whose width and height are 0.  (The
storage and remote paths are not covered: neither `_validate_tag_definition`
nor `from_dict` enforces positivity.) -/
theorem fallback_dimension_positivity :
    (fallbackDefinitions.all (fun p =>
      (p.1 == 240 || p.1 == 250)
      || (match (TagType.init p.1 p.2).width, (TagType.init p.1 p.2).height with
          | Value.int w, Value.int h => decide (0 < w) && decide (0 < h)
          | _, _ => false)) = true)
    ∧ (TagType.init 240 [("version", Value.int 2),
        ("name", Value.str "SLT‐EM007 Segmented"), ("width", Value.int 0),
        ("height", Value.int 0)]).width = Value.int 0 := by
  exact ⟨by decide, rfl⟩

/-- C10 counterexample.  The claim asserts `TagType.get(attr, default)`
returns the caller-supplied default for every name outside the record's
fixed field set; but `getattr` also performs method / class-attribute
lookup: at the concrete record `TagType.init 0 []` with default `9`,
`get("to_dict", 9)` returns the bound method `to_dict`, not the default
(likewise `"get"` or any `object`-inherited dunder). -/
theorem get_method_name_not_default :
    TagType.get (TagType.init 0 []) "to_dict" (Value.int 9)
      = PyAttr.boundMethod "to_dict"
    ∧ TagType.get (TagType.init 0 []) "to_dict" (Value.int 9)
      ≠ PyAttr.val (Value.int 9)
    ∧ TagType.get (TagType.init 0 []) "get" (Value.int 9)
      = PyAttr.boundMethod "get" :=
  ⟨rfl, fun h => PyAttr.noConfusion h, rfl⟩

/-- C10 amended.  The uniform accessor `TagType.get(attr, default)` returns
the stored attribute value for every name of the record's fixed data-field
set — including when that stored value is `None`; a name of a class method
(or an attribute inherited from `object`) resolves to the bound attribute,
never to the caller default; the caller-supplied default is returned only
for names that are no attribute of the object at all; consequently, for a
record reconstructed from a storage blob lacking a `name` key,
`get_hw_string` on its (known) ID returns `None` rather than the
`"Unknown Type {id}"` string. -/
theorem get_uniform_accessor (t : TagType) (attr : String) (dflt : Value)
    (st : ManagerState) (id : Int) (data : List (String × Value)) :
    (TagType.get t "type_id" dflt = PyAttr.val (Value.int t.type_id)
      ∧ TagType.get t "version" dflt = PyAttr.val t.version
      ∧ TagType.get t "name" dflt = PyAttr.val t.name
      ∧ TagType.get t "width" dflt = PyAttr.val t.width
      ∧ TagType.get t "height" dflt = PyAttr.val t.height
      ∧ TagType.get t "rotatebuffer" dflt = PyAttr.val t.rotatebuffer
      ∧ TagType.get t "bpp" dflt = PyAttr.val t.bpp
      ∧ TagType.get t "color_table" dflt = PyAttr.val t.color_table
      ∧ TagType.get t "short_lut" dflt = PyAttr.val t.short_lut
      ∧ TagType.get t "options" dflt = PyAttr.val t.options
      ∧ TagType.get t "content_ids" dflt = PyAttr.val t.content_ids
      ∧ TagType.get t "template" dflt = PyAttr.val t.template
      ∧ TagType.get t "use_template" dflt = PyAttr.val t.use_template
      ∧ TagType.get t "zlib_compression" dflt = PyAttr.val t.zlib_compression
      ∧ TagType.get t "_raw_data" dflt = PyAttr.val (Value.obj t.raw_data))
    ∧ (∀ m ∈ tagTypeMethodNames, TagType.get t m dflt = PyAttr.boundMethod m)
    ∧ (attr ∉ tagTypeFieldNames → attr ∉ tagTypeMethodNames →
        attr ∉ objectAttrNames → TagType.get t attr dflt = PyAttr.val dflt)
    ∧ (data.lookup "name" = none →
        st.tag_types.lookup id = some (TagType.from_dict id data) →
        getHwString st id = PyAttr.val Value.null) := by
  refine ⟨⟨rfl, rfl, rfl, rfl, rfl, rfl, rfl, rfl, rfl, rfl, rfl, rfl, rfl, rfl, rfl⟩,
    fun m hm => ?_, fun h1 h2 h3 => ?_, fun hn hlk => ?_⟩
  · simp only [tagTypeMethodNames, List.mem_cons, List.not_mem_nil, or_false] at hm
    rcases hm with rfl | rfl | rfl | rfl <;> rfl
  · simp only [tagTypeFieldNames, List.mem_cons, List.not_mem_nil, or_false] at h1
    push_neg at h1
    obtain ⟨n1, n2, n3, n4, n5, n6, n7, n8, n9, n10, n11, n12, n13, n14, n15⟩ := h1
    simp [TagType.get, n1, n2, n3, n4, n5, n6, n7, n8, n9, n10, n11, n12, n13,
      n14, n15, h2, h3]
  · have hname : (TagType.from_dict id data).name = Value.null :=
      dictGet_none _ _ _ hn
    simp [getHwString, hlk, TagType.get, hname]

/-- C10 witness: every data-field name returns its stored value, the method
name `to_dict` resolves to the bound method, a name that is no attribute at
all falls back to the supplied default, and `get_hw_string` on the known
ID 7 of a record reconstructed from a blob without a `name` key yields
`None`. -/
theorem get_uniform_accessor_witness :
    getHwString
      { tag_types := [(7, TagType.from_dict 7 [("width", Value.int 100)])]
      , last_update := none } 7 = PyAttr.val Value.null
    ∧ TagType.get (TagType.init 0 []) "frobnicate" (Value.int 9)
        = PyAttr.val (Value.int 9)
    ∧ TagType.get (TagType.init 0 []) "to_dict" (Value.int 9)
        = PyAttr.boundMethod "to_dict"
    ∧ TagType.get (TagType.init 0 []) "use_template" (Value.int 9)
        = PyAttr.val Value.null := by
  refine ⟨?_, ?_, ?_, ?_⟩
  · exact (get_uniform_accessor (TagType.init 0 []) "frobnicate" (Value.int 9)
      { tag_types := [(7, TagType.from_dict 7 [("width", Value.int 100)])]
      , last_update := none } 7 [("width", Value.int 100)]).2.2.2 rfl rfl
  · exact (get_uniform_accessor (TagType.init 0 []) "frobnicate" (Value.int 9)
      { tag_types := [], last_update := none } 0 []).2.2.1
      (by decide) (by decide) (by decide)
  · exact (get_uniform_accessor (TagType.init 0 []) "frobnicate" (Value.int 9)
      { tag_types := [], last_update := none } 0 []).2.1 "to_dict"
      (by decide)
  · exact (get_uniform_accessor (TagType.init 0 []) "frobnicate" (Value.int 9)
      { tag_types := [], last_update := none } 0 []).1.2.2.2.2.2.2.2.2.2.2.2.2.1

/-- C8.  Candidate-ID derivation in the listing phase: for a `.json`
filename, the candidate ID is derived by first attempting a hexadecimal
parse of the filename minus its extension, then falling back to a decimal
parse; a filename that parses as neither is skipped while the listing phase
continues with the remaining entries; and the all-digit base name `"10"`
parses (as hexadecimal) to 16. -/
theorem candidate_id_derivation (name url : String) (rest : List RemoteItem)
    (hjson : pyEndsWith name ".json" = true) :
    (∀ n, pyIntHex (pySliceDropLast5 name) = some n →
        listCandidates (⟨name, url⟩ :: rest) = (n, url) :: listCandidates rest)
    ∧ (∀ n, pyIntHex (pySliceDropLast5 name) = none →
        pyIntDec (pySliceDropLast5 name) = some n →
        listCandidates (⟨name, url⟩ :: rest) = (n, url) :: listCandidates rest)
    ∧ (pyIntHex (pySliceDropLast5 name) = none → pyIntDec (pySliceDropLast5 name) = none →
        listCandidates (⟨name, url⟩ :: rest) = listCandidates rest)
    ∧ parseTypeId "10" = some 16 := by
  refine ⟨fun n hhex => ?_, fun n hhex hdec => ?_, fun hhex hdec => ?_, rfl⟩
  · have hp : parseTypeId (pySliceDropLast5 name) = some n := by
      unfold parseTypeId
      rw [hhex]
    simp only [listCandidates, hjson, hp, if_true]
  · have hp : parseTypeId (pySliceDropLast5 name) = some n := by
      unfold parseTypeId
      rw [hhex, hdec]
    simp only [listCandidates, hjson, hp, if_true]
  · have hp : parseTypeId (pySliceDropLast5 name) = none := by
      unfold parseTypeId
      rw [hhex, hdec]
    simp only [listCandidates, hjson, hp, if_true]

/-- C8 witness: a small listing exercising all three branches — `"0a.json"`
parses as hex 10, `"zz.json"` parses as neither and is skipped, and the
all-digit `"10.json"` yields the hexadecimal value 16. -/
theorem candidate_id_derivation_witness :
    listCandidates [⟨"0a.json", "u"⟩] = [(10, "u")]
    ∧ listCandidates [⟨"zz.json", "v"⟩, ⟨"10.json", "w"⟩] = [(16, "w")]
    ∧ parseTypeId "10" = some 16 := by
  refine ⟨?_, ?_, (candidate_id_derivation "10.json" "w" [] rfl).2.2.2⟩
  · exact (candidate_id_derivation "0a.json" "u" [] rfl).1 10 rfl
  · exact ((candidate_id_derivation "zz.json" "v" [⟨"10.json", "w"⟩] rfl).2.2.1
      rfl rfl).trans ((candidate_id_derivation "10.json" "w" [] rfl).1 16 rfl)

/-- C7.  Staleness boundary: on a manager whose table is populated,
`ensure_types_loaded` attempts exactly one refresh when the freshness
timestamp is missing or the elapsed time since it strictly exceeds
`CACHE_DURATION` (48 hours), and attempts none otherwise; in particular a
timestamp 49 hours old triggers exactly one refresh attempt, a timestamp 47
hours old triggers none, and a timestamp exactly 48 hours old triggers
none (strict comparison). -/
theorem staleness_boundary (env : FetchEnv) (now : Int) (w : World)
    (st : ManagerState) (hne : st.tag_types ≠ []) :
    ((ensureTypesLoaded env now w st).2.2
        = if isStale now st.last_update then 1 else 0)
    ∧ (st.last_update = none → (ensureTypesLoaded env now w st).2.2 = 1)
    ∧ (st.last_update = some (now - 49 * 60) →
        (ensureTypesLoaded env now w st).2.2 = 1)
    ∧ (st.last_update = some (now - 47 * 60) →
        (ensureTypesLoaded env now w st).2.2 = 0)
    ∧ (st.last_update = some (now - 48 * 60) →
        (ensureTypesLoaded env now w st).2.2 = 0) := by
  have hempty : st.tag_types.isEmpty = false := by
    simpa using hne
  have hmain : (ensureTypesLoaded env now w st).2.2
      = if isStale now st.last_update then 1 else 0 := by
    cases hstale : isStale now st.last_update <;>
      simp [ensureTypesLoaded, hempty, hstale]
  refine ⟨hmain, fun h => ?_, fun h => ?_, fun h => ?_, fun h => ?_⟩
  · rw [hmain, h]
    simp [isStale]
  · rw [hmain, h]
    have hb : isStale now (some (now - 49 * 60)) = true := by
      simp only [isStale, CACHE_DURATION, decide_eq_true_eq]
      omega
    simpa using hb
  · rw [hmain, h]
    have hb : isStale now (some (now - 47 * 60)) = false := by
      simp only [isStale, CACHE_DURATION, decide_eq_false_iff_not]
      omega
    simpa using hb
  · rw [hmain, h]
    have hb : isStale now (some (now - 48 * 60)) = false := by
      simp only [isStale, CACHE_DURATION, decide_eq_false_iff_not]
      omega
    simpa using hb

/-- C7 witness: a populated single-record manager; with the timestamp 49
hours old one refresh attempt is made, with it 47 hours old none. -/
theorem staleness_boundary_witness :
    (ensureTypesLoaded { listing := none, download := fun _ => none } 0
        { store := none, legacy_store := none, legacy_file := false }
        { tag_types := [(1, TagType.init 1 [])]
        , last_update := some (0 - 49 * 60) }).2.2 = 1
    ∧ (ensureTypesLoaded { listing := none, download := fun _ => none } 0
        { store := none, legacy_store := none, legacy_file := false }
        { tag_types := [(1, TagType.init 1 [])]
        , last_update := some (0 - 47 * 60) }).2.2 = 0 := by
  constructor
  · exact (staleness_boundary _ 0 _ _ (by simp)).2.2.1 rfl
  · exact (staleness_boundary _ 0 _ _ (by simp)).2.2.2.1 rfl

/-- C2.  Total-failure availability: if the current-format persisted blob is
absent, the legacy persisted blob is absent, and the remote fetch fails,
then after `load_stored_data` completes the manager's table equals the
static fallback set, is non-empty, and the freshness timestamp is set to
now. -/
theorem total_failure_loads_fallback (env : FetchEnv) (now : Int) (w : World)
    (st : ManagerState) (hs : w.store = none) (hl : w.legacy_store = none)
    (hf : env.listing = none) (hcold : st.tag_types = []) :
    (loadStoredData env now w st).2.1 = loadFallbackTypes now
    ∧ (loadStoredData env now w st).2.1.tag_types ≠ []
    ∧ (loadStoredData env now w st).2.1.last_update = some now := by
  have hres : (loadStoredData env now w st).2.1 = loadFallbackTypes now := by
    simp [loadStoredData, hs, hl, loadViaFetch, fetchTagTypes, hf, hcold]
  refine ⟨hres, ?_, ?_⟩
  · rw [hres]
    simp [loadFallbackTypes, fallbackDefinitions]
  · rw [hres]
    rfl

/-- C2 witness: the theorem applied at an empty world, a cold manager and an
always-failing fetch environment. -/
theorem total_failure_loads_fallback_witness :
    (loadStoredData { listing := none, download := fun _ => none } 0
        { store := none, legacy_store := none, legacy_file := true }
        { tag_types := [], last_update := none }).2.1 = loadFallbackTypes 0
    ∧ (loadStoredData { listing := none, download := fun _ => none } 0
        { store := none, legacy_store := none, legacy_file := true }
        { tag_types := [], last_update := none }).2.1.tag_types ≠ []
    ∧ (loadStoredData { listing := none, download := fun _ => none } 0
        { store := none, legacy_store := none, legacy_file := true }
        { tag_types := [], last_update := none }).2.1.last_update = some 0 :=
  total_failure_loads_fallback _ 0 _ _ rfl rfl rfl rfl

/-- C3.  Refresh atomicity ("never go backward"): for every starting state,
a batch-level network/parse error (failed listing) or an assembly of zero
validated records makes `_fetch_tag_types` report failure and leave the
table, the timestamp and the stores exactly as they were; the table and
timestamp are replaced — and then persisted under the current storage key —
exactly when the assembled mapping is non-empty. -/
theorem refresh_atomicity (env : FetchEnv) (now : Int) (w : World)
    (st : ManagerState) :
    (env.listing = none → fetchTagTypes env now w st = (false, w, st))
    ∧ (∀ items, env.listing = some items → assembleNewTypes env items = [] →
        fetchTagTypes env now w st = (false, w, st))
    ∧ (∀ items, env.listing = some items → assembleNewTypes env items ≠ [] →
        fetchTagTypes env now w st =
          (true,
           { w with store := some (storeBlobOf now
               { tag_types := assembleNewTypes env items
               , last_update := some now }) },
           { tag_types := assembleNewTypes env items
           , last_update := some now })) := by
  refine ⟨fun hf => ?_, fun items hl hempty => ?_, fun items hl hne => ?_⟩
  · simp [fetchTagTypes, hf]
  · simp [fetchTagTypes, hl, hempty]
  · have hempty : (assembleNewTypes env items).isEmpty = false := by
      simpa using hne
    simp [fetchTagTypes, hl, hempty, saveToStore]

/-- C3 witness: the theorem applied with a failing listing leaves a
populated manager untouched and reports failure. -/
theorem refresh_atomicity_witness :
    fetchTagTypes { listing := none, download := fun _ => none } 0
        { store := none, legacy_store := none, legacy_file := false }
        { tag_types := [(1, TagType.init 1 [])], last_update := some 5 }
      = (false,
         { store := none, legacy_store := none, legacy_file := false },
         { tag_types := [(1, TagType.init 1 [])], last_update := some 5 }) :=
  (refresh_atomicity _ 0 _ _).1 rfl

/-- Concrete legacy-keyed blob used in the C5 scenario. -/
def legacyOnlyBlob : StoredBlob where
  version := Value.int 1
  last_update := some 0
  tag_types := [("1", Value.obj [("version", Value.int 1), ("name", Value.str "X"),
    ("width", Value.int 100), ("height", Value.int 50)])]

/-- Concrete world holding only the legacy-keyed blob, with the legacy
on-disk file present. -/
def legacyOnlyWorld : World where
  store := none
  legacy_store := some legacyOnlyBlob
  legacy_file := true

/-- C5 counterexample.  The claim asserts that every execution of the
cold-start load protocol attempts removal of the on-disk legacy file, and
in particular that after `ensure_types_loaded` on a world holding only a
legacy-keyed blob the legacy file is absent.  In the code, the
legacy-migration branch of `load_stored_data` returns before
`_cleanup_legacy_file` is ever called, so at this concrete input the legacy
file is still present afterwards (even though the migration itself — current
store populated, legacy store removed — did happen). -/
theorem legacy_file_survives_migration :
    ((ensureTypesLoaded { listing := none, download := fun _ => none } 0
        legacyOnlyWorld { tag_types := [], last_update := none }).1).legacy_file = true
    ∧ ((ensureTypesLoaded { listing := none, download := fun _ => none } 0
        legacyOnlyWorld { tag_types := [], last_update := none }).1).legacy_store = none
    ∧ ((ensureTypesLoaded { listing := none, download := fun _ => none } 0
        legacyOnlyWorld { tag_types := [], last_update := none }).1).store
        = some (storeBlobOf 0 (loadFromPayload 0 legacyOnlyBlob)) :=
  ⟨rfl, rfl, rfl⟩

/-- C5 amended.  Cleanup of the on-disk legacy file is attempted only in
the branches of the load protocol that reach the fetch step (fetch success
or fetch failure); the current-store and legacy-store branches leave it
untouched.  When only a legacy-keyed blob (matching the storage version) is
present and it is fresh and yields a non-empty table, after
`ensure_types_loaded` the current-keyed store contains the migrated data,
the legacy store is absent — and the legacy file is exactly as it was
before. -/
theorem legacy_migration_behavior (env : FetchEnv) (now : Int) (w : World)
    (st : ManagerState) (lb : StoredBlob) (t : Int)
    (hs : w.store = none) (hl : w.legacy_store = some lb)
    (hv : versionMatches lb.version = true) (hcold : st.tag_types = [])
    (hlu : lb.last_update = some t) (hfresh : now - t ≤ CACHE_DURATION)
    (hne : (loadFromPayload now lb).tag_types ≠ []) :
    ensureTypesLoaded env now w st =
      ({ store := some (storeBlobOf now (loadFromPayload now lb))
       , legacy_store := none
       , legacy_file := w.legacy_file },
       loadFromPayload now lb, 0)
    ∧ (∀ env' now' w' st', (loadViaFetch env' now' w' st').1.legacy_file = false) := by
  constructor
  · have hload : loadStoredData env now w st =
        ({ store := some (storeBlobOf now (loadFromPayload now lb))
         , legacy_store := none
         , legacy_file := w.legacy_file },
         loadFromPayload now lb, 0) := by
      have hlu2 : (loadFromPayload now lb).last_update = some t := by
        simp [loadFromPayload, hlu]
      simp [loadStoredData, hs, hl, hv, saveToStore, hlu2]
      rw [← hlu2]
    have hempty : st.tag_types.isEmpty = true := by
      simp [hcold]
    have hne2 : (loadFromPayload now lb).tag_types.isEmpty = false := by
      simpa using hne
    have hstale : isStale now (loadFromPayload now lb).last_update = false := by
      have : (loadFromPayload now lb).last_update = some t := by
        simp [loadFromPayload, hlu]
      rw [this]
      simp only [isStale, decide_eq_false_iff_not]
      omega
    simp [ensureTypesLoaded, hempty, hload, hne2, hstale]
  · intro env' now' w' st'
    cases h : (fetchTagTypes env' now' w' st').1 <;>
      simp [loadViaFetch, h, cleanupLegacyFile]

/-- C5 witness: the amended theorem applied at the concrete legacy-only
world with the legacy file present. -/
theorem legacy_migration_behavior_witness :
    ensureTypesLoaded { listing := none, download := fun _ => none } 0
        legacyOnlyWorld { tag_types := [], last_update := none } =
      ({ store := some (storeBlobOf 0 (loadFromPayload 0 legacyOnlyBlob))
       , legacy_store := none
       , legacy_file := true },
       loadFromPayload 0 legacyOnlyBlob, 0) :=
  (legacy_migration_behavior _ 0 legacyOnlyWorld _ legacyOnlyBlob 0
    rfl rfl rfl rfl rfl (by norm_num [CACHE_DURATION])
    (fun h => absurd (congrArg List.length h) (by decide))).1

/-- Inserting a key makes it present. -/
theorem dinsert_any_self (m : Table) (k : Int) (v : TagType) :
    (dinsert m k v).any (fun p => p.1 == k) = true := by
  unfold dinsert
  split
  · rename_i h
    rw [List.any_map, List.any_eq_true] at *
    obtain ⟨q, hq, hqk⟩ := h
    exact ⟨q, hq, by simp [Function.comp, hqk]⟩
  · rw [List.any_append]
    simp

/-- Inserting preserves the presence of any key. -/
theorem dinsert_any_mono (m : Table) (k k' : Int) (v : TagType)
    (h : m.any (fun p => p.1 == k') = true) :
    (dinsert m k v).any (fun p => p.1 == k') = true := by
  unfold dinsert
  split
  · rw [List.any_map, List.any_eq_true]
    rw [List.any_eq_true] at h
    obtain ⟨q, hq, hqk⟩ := h
    refine ⟨q, hq, ?_⟩
    by_cases hk : (q.1 == k) = true
    · have h1 : q.1 = k' := by simpa using hqk
      have h2 : q.1 = k := by simpa using hk
      simp [Function.comp, hk, ← h2, h1]
    · simp [Function.comp, hk, hqk]
  · rw [List.any_append]
    simp [h]

/-- The download loop never loses keys already assembled. -/
theorem assembleFrom_any_mono (env : FetchEnv) (k : Int) :
    ∀ (cands : List (Int × String)) (acc : Table),
      acc.any (fun p => p.1 == k) = true →
      (assembleFrom env acc cands).any (fun p => p.1 == k) = true := by
  intro cands
  induction cands with
  | nil => intro acc h; simpa [assembleFrom] using h
  | cons c rest ih =>
    intro acc h
    obtain ⟨hw, url⟩ := c
    cases hd : env.download url with
    | none =>
      rw [assembleFrom, hd]
      exact ih acc h
    | some data =>
      cases hv : validateTagDefinition data
      · rw [assembleFrom, hd]
        simp only [hv, Bool.false_eq_true, if_false]
        exact ih acc h
      · rw [assembleFrom, hd]
        simp only [hv, if_true]
        exact ih _ (dinsert_any_mono _ _ _ _ h)

/-- Every candidate whose download parses and validates ends up in the
assembled mapping, wherever it sits in the batch. -/
theorem assembleFrom_mem (env : FetchEnv) (k : Int) (url : String)
    (d : List (String × Value)) (hdl : env.download url = some d)
    (hval : validateTagDefinition d = true) :
    ∀ (cands : List (Int × String)) (acc : Table), (k, url) ∈ cands →
      (assembleFrom env acc cands).any (fun p => p.1 == k) = true := by
  intro cands
  induction cands with
  | nil => intro acc h; cases h
  | cons c rest ih =>
    intro acc hmem
    rcases List.mem_cons.mp hmem with hc | hc
    · subst hc
      rw [assembleFrom, hdl]
      simp only [hval, if_true]
      exact assembleFrom_any_mono env k rest _ (dinsert_any_self acc k _)
    · obtain ⟨hw, url'⟩ := c
      cases hd : env.download url' with
      | none =>
        rw [assembleFrom, hd]
        exact ih acc hc
      | some data =>
        cases hv : validateTagDefinition data
        · rw [assembleFrom, hd]
          simp only [hv, Bool.false_eq_true, if_false]
          exact ih acc hc
        · rw [assembleFrom, hd]
          simp only [hv, if_true]
          exact ih _ hc

/-- C6.  Per-entry fault isolation in the batch download phase: an entry
whose download fails or does not parse as structured data is skipped while
the batch continues; an entry lacking any of the four required fields
(`_validate_tag_definition` false) is skipped while the batch continues;
every candidate that downloads and validates is present in the assembled
mapping; and the refresh reports success exactly when the assembled mapping
is non-empty (so one validated entry suffices, however many others were
malformed). -/
theorem fetch_per_entry_isolation (env : FetchEnv) (now : Int) (w : World)
    (st : ManagerState) (items : List RemoteItem)
    (hl : env.listing = some items) :
    (∀ (acc : Table) (hw : Int) (url : String) (rest : List (Int × String)),
        env.download url = none →
        assembleFrom env acc ((hw, url) :: rest) = assembleFrom env acc rest)
    ∧ (∀ (acc : Table) (hw : Int) (url : String) (rest : List (Int × String))
          (d : List (String × Value)),
        env.download url = some d → validateTagDefinition d = false →
        assembleFrom env acc ((hw, url) :: rest) = assembleFrom env acc rest)
    ∧ (∀ (hw : Int) (url : String) (d : List (String × Value)),
        (hw, url) ∈ listCandidates items → env.download url = some d →
        validateTagDefinition d = true →
        (assembleNewTypes env items).any (fun p => p.1 == hw) = true)
    ∧ ((fetchTagTypes env now w st).1 = true ↔ assembleNewTypes env items ≠ []) := by
  refine ⟨fun acc hw url rest hd => ?_, fun acc hw url rest d hd hv => ?_,
    fun hw url d hmem hd hv => ?_, ?_⟩
  · rw [assembleFrom, hd]
  · rw [assembleFrom, hd]
    simp only [hv, Bool.false_eq_true, if_false]
  · exact assembleFrom_mem env hw url d hd hv _ _ hmem
  · cases he : (assembleNewTypes env items).isEmpty
    · have : assembleNewTypes env items ≠ [] := by simpa using he
      simp [fetchTagTypes, hl, he, this]
    · have : assembleNewTypes env items = [] := by simpa using he
      simp [fetchTagTypes, hl, he, this]

/-- Five-entry remote listing for the C6 witness. -/
def sampleItems : List RemoteItem :=
  [ ⟨"01.json", "u1"⟩, ⟨"02.json", "u2"⟩, ⟨"03.json", "u3"⟩
  , ⟨"04.json", "u4"⟩, ⟨"05.json", "u5"⟩ ]

/-- Per-URL downloads for the C6 witness: three well-formed definitions,
one unparsable entry (`u4`) and one entry lacking required fields (`u5`). -/
def sampleDownload (url : String) : Option (List (String × Value)) :=
  if url = "u1" then
    some [("version", Value.int 1), ("name", Value.str "A"),
      ("width", Value.int 100), ("height", Value.int 50)]
  else if url = "u2" then
    some [("version", Value.int 1), ("name", Value.str "B"),
      ("width", Value.int 200), ("height", Value.int 60)]
  else if url = "u3" then
    some [("version", Value.int 2), ("name", Value.str "C"),
      ("width", Value.int 300), ("height", Value.int 70)]
  else if url = "u5" then
    some [("version", Value.int 1), ("name", Value.str "D")]
  else none

/-- The C6 witness environment. -/
def sampleEnv : FetchEnv where
  listing := some sampleItems
  download := sampleDownload

/-- C6 witness: with 2 of 5 remote entries malformed, the refresh still
installs the other 3 and reports success. -/
theorem fetch_per_entry_isolation_witness :
    (fetchTagTypes sampleEnv 0
        { store := none, legacy_store := none, legacy_file := false }
        { tag_types := [], last_update := none }).1 = true
    ∧ (assembleNewTypes sampleEnv sampleItems).length = 3 := by
  refine ⟨?_, rfl⟩
  exact ((fetch_per_entry_isolation sampleEnv 0
      { store := none, legacy_store := none, legacy_file := false }
      { tag_types := [], last_update := none } sampleItems rfl).2.2.2).mpr
    (fun h => absurd (congrArg List.length h) (by decide))
